import Mathlib

/-
Verification development for the khmerzoon-app video-playback UI layer.

The embedding translates the routing component in
src/components/VideoPlayer.tsx (called the "new variant" below), the older
routing component found as an unnamed source file (the "old variant"), the
platform-detection helper src/hooks/useNativeMobile.tsx, and the relevant
parts of src/components/player/MobileVideoPlayer.tsx into pure Lean
functions.  JavaScript truthiness on optional strings (undefined, null and
the empty string are falsy) is modelled by the predicate strTruthy.
-/

namespace Khmerzoon

/-- State of the Capacitor platform bridge: what Capacitor.isNativePlatform()
and Capacitor.getPlatform() report. -/
structure Capacitor where
  isNativePlatform : Bool
  platform : String
deriving DecidableEq, Repr

/-- Record returned by the useNativeMobile hook
(src/hooks/useNativeMobile.tsx, lines 8-21). -/
structure NativeMobileInfo where
  isNative : Bool
  platform : String
  isAndroid : Bool
  isIOS : Bool
  isWeb : Bool
deriving DecidableEq, Repr

/-- Embedding of the useNativeMobile hook: isAndroid and isIOS require the
native flag together with the matching platform string, and isWeb holds when
the runtime is not native or the platform string is "web". -/
def useNativeMobile (cap : Capacitor) : NativeMobileInfo :=
  { isNative := cap.isNativePlatform
    platform := cap.platform
    isAndroid := cap.isNativePlatform && cap.platform == "android"
    isIOS := cap.isNativePlatform && cap.platform == "ios"
    isWeb := !cap.isNativePlatform || cap.platform == "web" }

/-- Embedding of the static helper isAndroidNative
(src/hooks/useNativeMobile.tsx, lines 30-32). -/
def isAndroidNative (cap : Capacitor) : Bool :=
  cap.isNativePlatform && cap.platform == "android"

/-- Embedding of the static helper isIOSNative
(src/hooks/useNativeMobile.tsx, lines 34-36). -/
def isIOSNative (cap : Capacitor) : Bool :=
  cap.isNativePlatform && cap.platform == "ios"

/-- Embedding of the static helper getNativePlatform
(src/hooks/useNativeMobile.tsx, lines 38-44): early return "web" when not
native, then dispatch on the platform string with "web" as the final
default. -/
def getNativePlatform (cap : Capacitor) : String :=
  if !cap.isNativePlatform then "web"
  else if cap.platform = "android" then "android"
  else if cap.platform = "ios" then "ios"
  else "web"

/-- JavaScript truthiness of an optional string: undefined/null and the empty
string are falsy, every other string is truthy. -/
def strTruthy : Option String → Bool
  | none => false
  | some s => !s.isEmpty

/-- Video source descriptor.  The VideoSource type itself is imported by the
routing component from a library file outside the provided sources; its shape
is taken from the fields the router reads (id, url, quality_urls,
source_type, is_default) and from the data model described in the spec (URL
or per-quality URL mapping, a source-type tag, a default flag).  quality_urls
is kept as the ordered list of values of the per-quality mapping, matching
what Object.values returns. -/
structure VideoSource where
  id : String
  url : Option String
  quality_urls : Option (List String)
  source_type : Option String
  is_default : Bool
deriving DecidableEq, Repr

/-- Episode descriptor as consumed by the routing component
(src/components/VideoPlayer.tsx, lines 12-20). -/
structure Episode where
  id : String
  episode_number : Option Nat
  title : Option String
  name : Option String
  still_path : Option String
  thumbnail_url : Option String
deriving DecidableEq, Repr

/-- Episode record in the shape forwarded to the players
(src/components/player/MobileVideoPlayer.tsx, lines 15-20). -/
structure PlayerEpisode where
  id : String
  episode_number : Nat
  title : Option String
  thumbnail_url : Option String
deriving DecidableEq, Repr

/-- JavaScript a || b on optional strings: keep a when truthy, else b. -/
def jsOrStr (a b : Option String) : Option String :=
  if strTruthy a then a else b

/-- Conversion of one episode to the player shape, following the map in
playerEpisodes (src/components/VideoPlayer.tsx, lines 80-86): episode_number
defaults to 0, title falls back to name, thumbnail_url falls back to
still_path, all with JavaScript truthiness. -/
def episodeToPlayer (ep : Episode) : PlayerEpisode :=
  { id := ep.id
    episode_number := ep.episode_number.getD 0
    title := jsOrStr ep.title ep.name
    thumbnail_url := jsOrStr ep.thumbnail_url ep.still_path }

/-- The playerEpisodes memo: a fresh map over the optional episodes input,
with the empty list for a missing input. -/
def playerEpisodes : Option (List Episode) → List PlayerEpisode
  | some eps => eps.map episodeToPlayer
  | none => []

/-- Source-type tag passed to the mobile player. -/
inductive MobileSourceType
  | mp4
  | hls
  | dash
deriving DecidableEq, Repr

/-- UI state of the new routing component variant
(src/components/VideoPlayer.tsx, lines 69-73): resolved mobile URL, source
type, loading flag and the web-player fallback flag. -/
structure MobileState where
  mobileVideoUrl : Option String
  mobileSourceType : MobileSourceType
  isLoadingMobileUrl : Bool
  useShakaFallback : Bool
deriving DecidableEq, Repr

/-- UI state of the old routing component variant (unnamed source file,
lines 69-71): same as the new variant but without the fallback flag. -/
structure OldMobileState where
  mobileVideoUrl : Option String
  mobileSourceType : MobileSourceType
  isLoadingMobileUrl : Bool
deriving DecidableEq, Repr

/-- Default-source selection shared by both variants:
videoSources.find(s => s.is_default) || videoSources[0]. -/
def defaultSource (videoSources : List VideoSource) : Option VideoSource :=
  match videoSources.find? (fun s => s.is_default) with
  | some s => some s
  | none => videoSources.head?

/-- Model of String.prototype.toLowerCase as used on the source-type tags:
lowercase every character.  Defined over the character list (rather than
through String.map) so that it evaluates by kernel reduction. -/
def strToLower (s : String) : String :=
  String.mk (s.data.map Char.toLower)

/-- Lowercased source-type string of a source: (source_type || "")
.toLowerCase(). -/
def sourceTypeOf (s : VideoSource) : String :=
  strToLower (s.source_type.getD "")

/-- Source-type dispatch shared by both variants: "hls"/"m3u8" to HLS,
"dash" to DASH, "mp4" to MP4, anything else to HLS. -/
def dispatchSourceType (st : String) : MobileSourceType :=
  if st = "hls" ∨ st = "m3u8" then .hls
  else if st = "dash" then .dash
  else if st = "mp4" then .mp4
  else .hls

/-- The fetch key string built from the episode or movie id and the source
id.  A missing id renders as the string "undefined" inside the template
literal. -/
def fetchKey (currentEpisodeId movieId : Option String) (srcId : String) : String :=
  (jsOrStr currentEpisodeId movieId).getD "undefined" ++ "-" ++ srcId

/-- URL-resolution effect of the new variant
(src/components/VideoPlayer.tsx, lines 111-181).  Takes the platform info,
the props, the lastFetched ref and the current state; returns the new state
and the new lastFetched ref.  Mirrors the source branch for branch: early
return off Android, empty-list branch, duplicate-fetch skip, iframe/embed
branch, source-type dispatch, then URL selection from url or quality_urls
with the fallback flag on failure. -/
def resolveMobileUrl (info : NativeMobileInfo) (videoSources : List VideoSource)
    (currentEpisodeId movieId : Option String)
    (lastFetched : Option String) (st : MobileState) :
    MobileState × Option String :=
  if ¬(info.isNative = true ∧ info.isAndroid = true) then (st, lastFetched)
  else
    match defaultSource videoSources with
    | none =>
      ({ st with mobileVideoUrl := none, isLoadingMobileUrl := false,
                 useShakaFallback := false }, lastFetched)
    | some ds =>
      let key := fetchKey currentEpisodeId movieId ds.id
      if lastFetched = some key ∧
          (strTruthy st.mobileVideoUrl = true ∨ st.useShakaFallback = true) then
        ({ st with isLoadingMobileUrl := false }, lastFetched)
      else
        let st1 := { st with isLoadingMobileUrl := true }
        if sourceTypeOf ds = "iframe" ∨ sourceTypeOf ds = "embed" then
          ({ st1 with mobileVideoUrl := none, useShakaFallback := true,
                      isLoadingMobileUrl := false }, some key)
        else
          let st2 := { st1 with mobileSourceType := dispatchSourceType (sourceTypeOf ds) }
          if strTruthy ds.url then
            ({ st2 with mobileVideoUrl := ds.url, useShakaFallback := false,
                        isLoadingMobileUrl := false }, some key)
          else
            match ds.quality_urls with
            | some urls =>
              if strTruthy urls.head? then
                ({ st2 with mobileVideoUrl := urls.head?, useShakaFallback := false,
                            isLoadingMobileUrl := false }, some key)
              else
                ({ st2 with mobileVideoUrl := none, useShakaFallback := true,
                            isLoadingMobileUrl := false }, some key)
            | none =>
              ({ st2 with mobileVideoUrl := none, useShakaFallback := true,
                          isLoadingMobileUrl := false }, some key)

/-- URL-resolution effect of the old variant (unnamed source file, lines
107-161).  Differences from the new variant: no fallback flag, source-type
dispatch happens before the iframe/embed check, the iframe/embed branch and
the no-source branch do not update lastFetched, and the quality_urls branch
stores firstUrl || null. -/
def resolveMobileUrlOld (info : NativeMobileInfo) (videoSources : List VideoSource)
    (currentEpisodeId movieId : Option String)
    (lastFetched : Option String) (st : OldMobileState) :
    OldMobileState × Option String :=
  if ¬(info.isNative = true ∧ info.isAndroid = true) then (st, lastFetched)
  else
    match defaultSource videoSources with
    | none =>
      ({ st with mobileVideoUrl := none, isLoadingMobileUrl := false }, lastFetched)
    | some ds =>
      let key := fetchKey currentEpisodeId movieId ds.id
      if lastFetched = some key ∧ strTruthy st.mobileVideoUrl = true then
        ({ st with isLoadingMobileUrl := false }, lastFetched)
      else
        let st2 : OldMobileState :=
          { st with isLoadingMobileUrl := true,
                    mobileSourceType := dispatchSourceType (sourceTypeOf ds) }
        if sourceTypeOf ds = "iframe" ∨ sourceTypeOf ds = "embed" then
          ({ st2 with mobileVideoUrl := none, isLoadingMobileUrl := false }, lastFetched)
        else if strTruthy ds.url then
          ({ st2 with mobileVideoUrl := ds.url, isLoadingMobileUrl := false }, some key)
        else
          match ds.quality_urls with
          | some urls =>
            ({ st2 with mobileVideoUrl := (if strTruthy urls.head? then urls.head? else none),
                        isLoadingMobileUrl := false }, some key)
          | none =>
            ({ st2 with mobileVideoUrl := none, isLoadingMobileUrl := false }, lastFetched)

/-- The three possible rendering outcomes of the routing component. -/
inductive RouterRender
  | mobilePlayer
  | loadingSpinner
  | shakaPlayer
deriving DecidableEq, Repr

/-- Render logic of the new variant (src/components/VideoPlayer.tsx, lines
184-236): on native Android without the fallback flag, show the spinner
while loading, the mobile player when a truthy URL is resolved; in every
other case render the ShakaPlayer. -/
def renderVideoPlayer (info : NativeMobileInfo) (st : MobileState) : RouterRender :=
  if info.isNative = true ∧ info.isAndroid = true ∧ st.useShakaFallback = false then
    if st.isLoadingMobileUrl = true then .loadingSpinner
    else if strTruthy st.mobileVideoUrl = true then .mobilePlayer
    else .shakaPlayer
  else .shakaPlayer

/-- Render logic of the old variant (unnamed source file, lines 163-217):
mobile player when a truthy URL is resolved on native Android, then the
spinner while loading on native Android, else the ShakaPlayer. -/
def renderVideoPlayerOld (info : NativeMobileInfo) (st : OldMobileState) : RouterRender :=
  if info.isNative = true ∧ info.isAndroid = true ∧ strTruthy st.mobileVideoUrl = true then
    .mobilePlayer
  else if info.isNative = true ∧ info.isAndroid = true ∧ st.isLoadingMobileUrl = true then
    .loadingSpinner
  else .shakaPlayer

/-- Projection from the new-variant state onto the old-variant state (the
old variant has no fallback flag). -/
def oldView (st : MobileState) : OldMobileState :=
  { mobileVideoUrl := st.mobileVideoUrl
    mobileSourceType := st.mobileSourceType
    isLoadingMobileUrl := st.isLoadingMobileUrl }

/-- Fresh resolution in the new variant: the effect applied with an empty
lastFetched ref, as after a mount or an episode change reset. -/
def resolveFresh (cap : Capacitor) (srcs : List VideoSource)
    (cur mov : Option String) (st : MobileState) : MobileState :=
  (resolveMobileUrl (useNativeMobile cap) srcs cur mov none st).1

/-- Initial state of the old variant: no URL, source type "hls", not
loading (unnamed source file, lines 69-71). -/
def initialOldState : OldMobileState :=
  { mobileVideoUrl := none, mobileSourceType := .hls, isLoadingMobileUrl := false }

/-- Initial state of the new variant (src/components/VideoPlayer.tsx, lines
69-73): no URL, source type "hls", not loading, fallback off. -/
def initialMobileState : MobileState :=
  { mobileVideoUrl := none, mobileSourceType := .hls
    isLoadingMobileUrl := false, useShakaFallback := false }

/-- States of the old variant reachable from its initial state through its
own state updates: the episode-change/episode-select reset (clear the URL,
set the loading flag) and a run of the URL-resolution effect with any
surrounding props. -/
inductive OldReachable : OldMobileState → Prop
  | init : OldReachable initialOldState
  | reset (st : OldMobileState) : OldReachable st →
      OldReachable { st with mobileVideoUrl := none, isLoadingMobileUrl := true }
  | resolve (info : NativeMobileInfo) (srcs : List VideoSource)
      (cur mov lf : Option String) (st : OldMobileState) : OldReachable st →
      OldReachable (resolveMobileUrlOld info srcs cur mov lf st).1

/-- Environment of one run of the mobile player initialization: whether the
adaptive-streaming library reports the browser supported, and whether its
attach/load step throws or rejects. -/
structure InitEnv where
  browserSupported : Bool
  attachOrLoadFails : Bool
deriving DecidableEq, Repr

/-- Observable outcome of one run of initPlayer
(src/components/player/MobileVideoPlayer.tsx, lines 89-141):
what was assigned to the video element src, whether element load was
called, whether the adaptive engine ends up driving playback, how many
times the adaptive engine was set up, and whether any error was surfaced to
the user (the catch handlers only log to the console). -/
structure InitResult where
  videoSrcAssigned : Option String
  loadCalled : Bool
  adaptiveEngineActive : Bool
  adaptiveInitAttempts : Nat
  errorSurfacedToUser : Bool
deriving DecidableEq, Repr

/-- Embedding of initPlayer: the mp4 branch assigns the URL directly; the
HLS/DASH branch falls back to a direct src assignment plus load when the
browser is unsupported or when the single shaka attach/load attempt fails,
and otherwise leaves the shaka engine attached.  No branch surfaces an
error to the user and no branch retries. -/
def initPlayer (videoUrl : String) (sourceType : MobileSourceType)
    (env : InitEnv) : InitResult :=
  match sourceType with
  | .mp4 =>
    { videoSrcAssigned := some videoUrl, loadCalled := true
      adaptiveEngineActive := false, adaptiveInitAttempts := 0
      errorSurfacedToUser := false }
  | _ =>
    if env.browserSupported = false then
      { videoSrcAssigned := some videoUrl, loadCalled := true
        adaptiveEngineActive := false, adaptiveInitAttempts := 0
        errorSurfacedToUser := false }
    else if env.attachOrLoadFails = true then
      { videoSrcAssigned := some videoUrl, loadCalled := true
        adaptiveEngineActive := false, adaptiveInitAttempts := 1
        errorSurfacedToUser := false }
    else
      { videoSrcAssigned := none, loadCalled := false
        adaptiveEngineActive := true, adaptiveInitAttempts := 1
        errorSurfacedToUser := false }

/-- Environment of one fullscreen toggle: whether the container ref is
mounted, whether the runtime is native, and whether the orientation-lock and
web-fullscreen calls reject. -/
structure FullscreenEnv where
  containerPresent : Bool
  isNativePlatform : Bool
  orientationCallRejects : Bool
  webFullscreenCallRejects : Bool
deriving DecidableEq, Repr

/-- Observable outcome of one run of toggleFullscreen: the new value of the
fullscreen flag, how many rejections were caught and logged, and whether any
error was surfaced to the user. -/
structure FullscreenResult where
  isFullscreen : Bool
  caughtAndLogged : Nat
  errorSurfacedToUser : Bool
deriving DecidableEq, Repr

/-- Embedding of toggleFullscreen
(src/components/player/MobileVideoPlayer.tsx, lines 210-285).  With no
container the function returns early leaving the flag unchanged.  Entering:
the native orientation lock and the web fullscreen request each sit in their
own try/catch that only logs, then the flag is set to true.  Exiting: the
web fullscreen exit and the native orientation portrait lock each sit in
their own try/catch that only logs, then the flag is set to false. -/
def toggleFullscreen (isFullscreen : Bool) (env : FullscreenEnv) : FullscreenResult :=
  if env.containerPresent = false then
    { isFullscreen := isFullscreen, caughtAndLogged := 0, errorSurfacedToUser := false }
  else if isFullscreen = false then
    { isFullscreen := true
      caughtAndLogged :=
        (if env.isNativePlatform = true ∧ env.orientationCallRejects = true then 1 else 0) +
        (if env.webFullscreenCallRejects = true then 1 else 0)
      errorSurfacedToUser := false }
  else
    { isFullscreen := false
      caughtAndLogged :=
        (if env.webFullscreenCallRejects = true then 1 else 0) +
        (if env.isNativePlatform = true ∧ env.orientationCallRejects = true then 1 else 0)
      errorSurfacedToUser := false }

/-- Props read by the routing component that the frame-effect claim is
about: the video-source list, the optional episode list and the ids. -/
structure RouterInputs where
  videoSources : List VideoSource
  episodes : Option (List Episode)
  currentEpisodeId : Option String
  movieId : Option String
deriving DecidableEq, Repr

/-- One pass of the new routing component over its props and state: run the
URL-resolution effect and hand back the props together with the new state
and ref.  The component body only reads the props, so the embedding returns
them as they came in. -/
def routerStep (cap : Capacitor) (inp : RouterInputs)
    (lastFetched : Option String) (st : MobileState) :
    RouterInputs × MobileState × Option String :=
  let res := resolveMobileUrl (useNativeMobile cap) inp.videoSources
    inp.currentEpisodeId inp.movieId lastFetched st
  (inp, res.1, res.2)

/-- C9: for every state of the platform bridge, the predicates returned by
the platform-detection helper satisfy: isAndroid and isIOS each imply
isNative; isAndroid and isIOS are never both true; isWeb holds exactly when
the runtime is not native or the platform string is "web"; and
getNativePlatform always returns one of "android", "ios", "web", returning
"web" whenever the runtime is not native. -/
theorem useNativeMobile_platform_invariants (cap : Capacitor) :
    ((useNativeMobile cap).isAndroid = true → (useNativeMobile cap).isNative = true) ∧
    ((useNativeMobile cap).isIOS = true → (useNativeMobile cap).isNative = true) ∧
    ¬((useNativeMobile cap).isAndroid = true ∧ (useNativeMobile cap).isIOS = true) ∧
    ((useNativeMobile cap).isWeb = true ↔
      (cap.isNativePlatform = false ∨ cap.platform = "web")) ∧
    (getNativePlatform cap = "android" ∨ getNativePlatform cap = "ios" ∨
      getNativePlatform cap = "web") ∧
    (cap.isNativePlatform = false → getNativePlatform cap = "web") := by
  obtain ⟨n, p⟩ := cap
  cases n <;>
    by_cases hand : p = "android" <;>
      by_cases hios : p = "ios" <;>
        by_cases hweb : p = "web" <;>
          simp_all [useNativeMobile, getNativePlatform]

/-- Witness for C9 at a concrete bridge state: a non-native runtime with an
unrecognized platform string reports "web". -/
theorem useNativeMobile_platform_invariants_witness :
    getNativePlatform { isNativePlatform := false, platform := "chrome" } = "web" :=
  (useNativeMobile_platform_invariants
    { isNativePlatform := false, platform := "chrome" }).2.2.2.2.2 rfl

/-- C1: the mobile player is rendered only when the platform bridge reports
a native platform whose platform string is "android"; on web (the isWeb
predicate of the hook) and on native iOS the router always renders the
ShakaPlayer, whatever the UI state. -/
theorem videoPlayer_routes_mobile_only_on_android (cap : Capacitor) (st : MobileState) :
    (renderVideoPlayer (useNativeMobile cap) st = .mobilePlayer →
      cap.isNativePlatform = true ∧ cap.platform = "android") ∧
    ((useNativeMobile cap).isWeb = true →
      renderVideoPlayer (useNativeMobile cap) st = .shakaPlayer) ∧
    ((useNativeMobile cap).isIOS = true →
      renderVideoPlayer (useNativeMobile cap) st = .shakaPlayer) := by
  obtain ⟨n, p⟩ := cap
  obtain ⟨u, t, l, f⟩ := st
  cases n <;>
    by_cases hand : p = "android" <;>
      simp_all [useNativeMobile, renderVideoPlayer]

/-- Witness for C1 at concrete inputs: on a non-native (web) runtime the
router renders the ShakaPlayer. -/
theorem videoPlayer_routes_mobile_only_on_android_witness :
    renderVideoPlayer (useNativeMobile { isNativePlatform := false, platform := "web" })
      { mobileVideoUrl := some "https://cdn.example.com/v.m3u8"
        mobileSourceType := .hls, isLoadingMobileUrl := false
        useShakaFallback := false } = .shakaPlayer :=
  (videoPlayer_routes_mobile_only_on_android
    { isNativePlatform := false, platform := "web" }
    { mobileVideoUrl := some "https://cdn.example.com/v.m3u8"
      mobileSourceType := .hls, isLoadingMobileUrl := false
      useShakaFallback := false }).2.1 (by decide)

/-- C3 counterexample: a default source of type "iframe" carrying a truthy
direct url.  The claim says a direct url of the default source is used, but
the router leaves the mobile URL unset for iframe sources. -/
theorem resolveFresh_iframe_url_unused :
    strTruthy (VideoSource.url
      ⟨"s1", some "https://cdn.example.com/v.mp4", none, some "iframe", true⟩) = true ∧
    (resolveFresh ⟨true, "android"⟩
      [⟨"s1", some "https://cdn.example.com/v.mp4", none, some "iframe", true⟩]
      none none initialMobileState).mobileVideoUrl = none := by decide

/-- C3 as amended: on native Android, the default source is the first source
whose default flag is set, or the first element when none is marked default;
for a fresh resolution whose default source is not of type iframe/embed, a
truthy direct url is used, and otherwise the first value of quality_urls is
used when truthy; for an empty list no URL is set, loading ends cleared and
no mobile player is shown. -/
theorem resolveFresh_default_source_url_selection (cap : Capacitor)
    (srcs : List VideoSource) (cur mov : Option String) (st : MobileState) :
    cap.isNativePlatform = true → cap.platform = "android" →
    (∀ d, srcs.find? (fun s => s.is_default) = some d → defaultSource srcs = some d) ∧
    (srcs.find? (fun s => s.is_default) = none → defaultSource srcs = srcs.head?) ∧
    (srcs = [] →
      (resolveFresh cap srcs cur mov st).mobileVideoUrl = none ∧
      (resolveFresh cap srcs cur mov st).isLoadingMobileUrl = false ∧
      renderVideoPlayer (useNativeMobile cap) (resolveFresh cap srcs cur mov st) ≠
        .mobilePlayer) ∧
    (∀ ds, defaultSource srcs = some ds →
      sourceTypeOf ds ≠ "iframe" → sourceTypeOf ds ≠ "embed" →
      (strTruthy ds.url = true →
        (resolveFresh cap srcs cur mov st).mobileVideoUrl = ds.url) ∧
      (strTruthy ds.url = false → ∀ urls, ds.quality_urls = some urls →
        strTruthy urls.head? = true →
        (resolveFresh cap srcs cur mov st).mobileVideoUrl = urls.head?)) := by
  intro hn hp
  have hinfo1 : (useNativeMobile cap).isNative = true := by
    simp [useNativeMobile, hn]
  have hinfo2 : (useNativeMobile cap).isAndroid = true := by
    simp [useNativeMobile, hn, hp]
  refine ⟨?_, ?_, ?_, ?_⟩
  · intro d hd
    simp [defaultSource, hd]
  · intro hd
    simp [defaultSource, hd]
  · intro hsrcs
    subst hsrcs
    simp [resolveFresh, resolveMobileUrl, hinfo1, hinfo2, defaultSource,
      renderVideoPlayer, strTruthy]
  · intro ds hds hif hem
    constructor
    · intro hurl
      simp [resolveFresh, resolveMobileUrl, hinfo1, hinfo2, hds, hif, hem, hurl]
    · intro hurl urls hq hhead
      simp [resolveFresh, resolveMobileUrl, hinfo1, hinfo2, hds, hif, hem,
        hurl, hq, hhead]

/-- Witness for the amended C3 at concrete inputs: an HLS default source with
a direct url resolves to that url. -/
theorem resolveFresh_default_source_url_selection_witness :
    (resolveFresh ⟨true, "android"⟩
      [⟨"s1", some "https://cdn.example.com/v.m3u8", none, some "hls", true⟩]
      none none initialMobileState).mobileVideoUrl =
    (⟨"s1", some "https://cdn.example.com/v.m3u8", none, some "hls", true⟩ :
      VideoSource).url :=
  ((resolveFresh_default_source_url_selection ⟨true, "android"⟩
      [⟨"s1", some "https://cdn.example.com/v.m3u8", none, some "hls", true⟩]
      none none initialMobileState rfl rfl).2.2.2
    ⟨"s1", some "https://cdn.example.com/v.m3u8", none, some "hls", true⟩
    (by decide) (by decide) (by decide)).1 (by decide)

/-- Helper: for a fresh resolution on native Android whose default source is
not of type iframe/embed, the stored mobile source type is the dispatch of
the lowercased source-type tag, in every URL branch. -/
lemma resolveFresh_mobileSourceType_eq (cap : Capacitor) (srcs : List VideoSource)
    (cur mov : Option String) (st : MobileState) (ds : VideoSource)
    (hn : cap.isNativePlatform = true) (hp : cap.platform = "android")
    (hds : defaultSource srcs = some ds)
    (hif : sourceTypeOf ds ≠ "iframe") (hem : sourceTypeOf ds ≠ "embed") :
    (resolveFresh cap srcs cur mov st).mobileSourceType =
      dispatchSourceType (sourceTypeOf ds) := by
  have hinfo1 : (useNativeMobile cap).isNative = true := by
    simp [useNativeMobile, hn]
  have hinfo2 : (useNativeMobile cap).isAndroid = true := by
    simp [useNativeMobile, hn, hp]
  simp only [resolveFresh, resolveMobileUrl, hinfo1, hinfo2, hds]
  simp [hif, hem]
  split_ifs with h1
  · rfl
  · rcases hq : ds.quality_urls with _ | urls
    · simp [hq]
    · simp [hq]
      split_ifs <;> rfl

/-- C4: on native Android the router dispatches on the lowercased
source-type string of the default source: "iframe" and "embed" select the
web ShakaPlayer instead of the mobile player; "hls", "m3u8" and every other
unrecognized or missing value map the mobile player to HLS mode; "dash" maps
to DASH mode; "mp4" maps to MP4 mode. -/
theorem resolveFresh_source_type_dispatch (cap : Capacitor)
    (srcs : List VideoSource) (cur mov : Option String) (st : MobileState)
    (ds : VideoSource) :
    cap.isNativePlatform = true → cap.platform = "android" →
    defaultSource srcs = some ds →
    (sourceTypeOf ds = "iframe" ∨ sourceTypeOf ds = "embed" →
      (resolveFresh cap srcs cur mov st).useShakaFallback = true ∧
      (resolveFresh cap srcs cur mov st).mobileVideoUrl = none ∧
      renderVideoPlayer (useNativeMobile cap) (resolveFresh cap srcs cur mov st) =
        .shakaPlayer) ∧
    (sourceTypeOf ds = "hls" ∨ sourceTypeOf ds = "m3u8" →
      (resolveFresh cap srcs cur mov st).mobileSourceType = .hls) ∧
    (sourceTypeOf ds = "dash" →
      (resolveFresh cap srcs cur mov st).mobileSourceType = .dash) ∧
    (sourceTypeOf ds = "mp4" →
      (resolveFresh cap srcs cur mov st).mobileSourceType = .mp4) ∧
    (sourceTypeOf ds ∉ (["iframe", "embed", "hls", "m3u8", "dash", "mp4"] : List String) →
      (resolveFresh cap srcs cur mov st).mobileSourceType = .hls) := by
  intro hn hp hds
  have hinfo1 : (useNativeMobile cap).isNative = true := by
    simp [useNativeMobile, hn]
  have hinfo2 : (useNativeMobile cap).isAndroid = true := by
    simp [useNativeMobile, hn, hp]
  refine ⟨?_, ?_, ?_, ?_, ?_⟩
  · intro hife
    simp [resolveFresh, resolveMobileUrl, hinfo1, hinfo2, hds, hife,
      renderVideoPlayer]
  · intro hhls
    have hif : sourceTypeOf ds ≠ "iframe" := by
      rcases hhls with h | h <;> simp [h]
    have hem : sourceTypeOf ds ≠ "embed" := by
      rcases hhls with h | h <;> simp [h]
    rw [resolveFresh_mobileSourceType_eq cap srcs cur mov st ds hn hp hds hif hem]
    rcases hhls with h | h <;> simp [dispatchSourceType, h]
  · intro hdash
    have hif : sourceTypeOf ds ≠ "iframe" := by simp [hdash]
    have hem : sourceTypeOf ds ≠ "embed" := by simp [hdash]
    rw [resolveFresh_mobileSourceType_eq cap srcs cur mov st ds hn hp hds hif hem]
    simp [dispatchSourceType, hdash]
  · intro hmp4
    have hif : sourceTypeOf ds ≠ "iframe" := by simp [hmp4]
    have hem : sourceTypeOf ds ≠ "embed" := by simp [hmp4]
    rw [resolveFresh_mobileSourceType_eq cap srcs cur mov st ds hn hp hds hif hem]
    simp [dispatchSourceType, hmp4]
  · intro hother
    simp only [List.mem_cons, List.mem_singleton, not_or] at hother
    obtain ⟨h1, h2, h3, h4, h5, h6⟩ := hother
    rw [resolveFresh_mobileSourceType_eq cap srcs cur mov st ds hn hp hds h1 h2]
    simp [dispatchSourceType, h3, h4, h5, h6]

/-- Witness for C4 at concrete inputs: an uppercase "DASH" source-type tag
maps the mobile player to DASH mode. -/
theorem resolveFresh_source_type_dispatch_witness :
    (resolveFresh ⟨true, "android"⟩
      [⟨"s1", some "https://cdn.example.com/v.mpd", none, some "DASH", true⟩]
      none none initialMobileState).mobileSourceType = .dash :=
  (resolveFresh_source_type_dispatch ⟨true, "android"⟩
      [⟨"s1", some "https://cdn.example.com/v.mpd", none, some "DASH", true⟩]
      none none initialMobileState
      ⟨"s1", some "https://cdn.example.com/v.mpd", none, some "DASH", true⟩
      rfl rfl (by decide)).2.2.1 (by decide)

/-- C5: when adaptive-streaming initialization fails in the mobile player
(the browser reported unsupported, or the attach/load step throws), the
component falls back to a plain media element by assigning the video URL
directly to the element src and calling load, without surfacing an error to
the user. -/
theorem initPlayer_failure_falls_back_to_plain_element (videoUrl : String)
    (sourceType : MobileSourceType) (env : InitEnv) :
    sourceType ≠ .mp4 →
    env.browserSupported = false ∨ env.attachOrLoadFails = true →
    (initPlayer videoUrl sourceType env).videoSrcAssigned = some videoUrl ∧
    (initPlayer videoUrl sourceType env).loadCalled = true ∧
    (initPlayer videoUrl sourceType env).adaptiveEngineActive = false ∧
    (initPlayer videoUrl sourceType env).errorSurfacedToUser = false := by
  intro hmp4 hfail
  cases sourceType <;> rcases hfail with h | h <;>
    simp_all [initPlayer] <;> split_ifs <;> simp_all

/-- Witness for C5 at concrete inputs: an HLS init whose attach/load step
throws ends with the URL on the element src, load called and no surfaced
error. -/
theorem initPlayer_failure_falls_back_to_plain_element_witness :
    (initPlayer "https://cdn.example.com/v.m3u8" .hls ⟨true, true⟩).videoSrcAssigned =
      some "https://cdn.example.com/v.m3u8" ∧
    (initPlayer "https://cdn.example.com/v.m3u8" .hls ⟨true, true⟩).loadCalled = true ∧
    (initPlayer "https://cdn.example.com/v.m3u8" .hls ⟨true, true⟩).adaptiveEngineActive = false ∧
    (initPlayer "https://cdn.example.com/v.m3u8" .hls ⟨true, true⟩).errorSurfacedToUser = false :=
  initPlayer_failure_falls_back_to_plain_element "https://cdn.example.com/v.m3u8"
    .hls ⟨true, true⟩ (by decide) (Or.inr rfl)

/-- C2 counterexample: a mobile loading failure does not hand playback to
the web player path.  At a state where the router shows the mobile player on
native Android, a failing shaka attach/load leaves a plain-element fallback
inside the mobile player (the adaptive engine inactive, the URL assigned to
the element) while the router still renders the mobile player and not the
ShakaPlayer. -/
theorem mobile_failure_does_not_reach_web_player :
    (initPlayer "https://cdn.example.com/v.m3u8" .hls ⟨true, true⟩).adaptiveEngineActive =
      false ∧
    (initPlayer "https://cdn.example.com/v.m3u8" .hls ⟨true, true⟩).videoSrcAssigned =
      some "https://cdn.example.com/v.m3u8" ∧
    renderVideoPlayer (useNativeMobile ⟨true, "android"⟩)
      ⟨some "https://cdn.example.com/v.m3u8", .hls, false, false⟩ ≠ .shakaPlayer := by
  decide

/-- C2 as amended: a network or loading failure in the mobile player is
recovered by a single fallback to a plain media element inside the mobile
player (one adaptive-engine attempt, no retry or backoff, nothing surfaced
to the user), and the router keeps rendering the mobile player rather than
switching to the web player path. -/
theorem mobile_failure_single_plain_fallback (videoUrl : String)
    (sourceType : MobileSourceType) (env : InitEnv) (cap : Capacitor)
    (st : MobileState) :
    sourceType ≠ .mp4 → env.browserSupported = true → env.attachOrLoadFails = true →
    ((initPlayer videoUrl sourceType env).videoSrcAssigned = some videoUrl ∧
     (initPlayer videoUrl sourceType env).loadCalled = true ∧
     (initPlayer videoUrl sourceType env).adaptiveEngineActive = false ∧
     (initPlayer videoUrl sourceType env).adaptiveInitAttempts = 1 ∧
     (initPlayer videoUrl sourceType env).errorSurfacedToUser = false) ∧
    (cap.isNativePlatform = true → cap.platform = "android" →
     st.useShakaFallback = false → st.isLoadingMobileUrl = false →
     strTruthy st.mobileVideoUrl = true →
     renderVideoPlayer (useNativeMobile cap) st = .mobilePlayer) := by
  intro hmp4 hsupp hfail
  constructor
  · cases sourceType <;> simp_all [initPlayer]
  · intro hn hp hf hl hu
    simp [renderVideoPlayer, useNativeMobile, hn, hp, hf, hl, hu]

/-- Witness for the amended C2 at concrete inputs. -/
theorem mobile_failure_single_plain_fallback_witness :
    (initPlayer "https://cdn.example.com/v.mpd" .dash ⟨true, true⟩).adaptiveInitAttempts = 1 ∧
    renderVideoPlayer (useNativeMobile ⟨true, "android"⟩)
      ⟨some "https://cdn.example.com/v.mpd", .dash, false, false⟩ = .mobilePlayer :=
  ⟨((mobile_failure_single_plain_fallback "https://cdn.example.com/v.mpd" .dash
      ⟨true, true⟩ ⟨true, "android"⟩
      ⟨some "https://cdn.example.com/v.mpd", .dash, false, false⟩
      (by decide) rfl rfl).1).2.2.2.1,
   (mobile_failure_single_plain_fallback "https://cdn.example.com/v.mpd" .dash
      ⟨true, true⟩ ⟨true, "android"⟩
      ⟨some "https://cdn.example.com/v.mpd", .dash, false, false⟩
      (by decide) rfl rfl).2 rfl rfl rfl rfl (by decide)⟩

/-- C6: every rejected fullscreen or orientation-lock call inside the
fullscreen toggle is caught and logged without surfacing to the user, and
the fullscreen flag still transitions to its new value despite such
rejections, as long as the container ref is mounted. -/
theorem toggleFullscreen_transitions_despite_rejections (isFullscreen : Bool)
    (env : FullscreenEnv) :
    env.containerPresent = true →
    (toggleFullscreen isFullscreen env).isFullscreen = !isFullscreen ∧
    (toggleFullscreen isFullscreen env).errorSurfacedToUser = false ∧
    (env.isNativePlatform = true → env.orientationCallRejects = true →
      env.webFullscreenCallRejects = true →
      (toggleFullscreen isFullscreen env).caughtAndLogged = 2) := by
  intro hc
  cases isFullscreen <;> simp_all [toggleFullscreen]

/-- Witness for C6 at concrete inputs: entering fullscreen on native with
both the orientation lock and the web fullscreen request rejecting still
sets the flag, logs both rejections and surfaces nothing. -/
theorem toggleFullscreen_transitions_despite_rejections_witness :
    (toggleFullscreen false ⟨true, true, true, true⟩).isFullscreen = !false ∧
    (toggleFullscreen false ⟨true, true, true, true⟩).errorSurfacedToUser = false ∧
    (toggleFullscreen false ⟨true, true, true, true⟩).caughtAndLogged = 2 :=
  ⟨(toggleFullscreen_transitions_despite_rejections false ⟨true, true, true, true⟩ rfl).1,
   (toggleFullscreen_transitions_despite_rejections false ⟨true, true, true, true⟩ rfl).2.1,
   (toggleFullscreen_transitions_despite_rejections false ⟨true, true, true, true⟩ rfl).2.2
     rfl rfl rfl⟩

/-- C7: the routing layer treats its inputs as immutable.  One pass of the
component hands its props back unchanged (the body only reads them); the
episode list forwarded to either player is the fresh playerEpisodes map,
which keeps length and ids of the input list and converts each element
field for field; and the only state this layer updates is the four-field
transient UI state carried by MobileState. -/
theorem routerStep_preserves_inputs (cap : Capacitor) (inp : RouterInputs)
    (lastFetched : Option String) (st : MobileState) :
    (routerStep cap inp lastFetched st).1 = inp ∧
    (∀ eps : List Episode,
      playerEpisodes (some eps) = eps.map episodeToPlayer ∧
      (playerEpisodes (some eps)).length = eps.length ∧
      (playerEpisodes (some eps)).map PlayerEpisode.id = eps.map Episode.id) ∧
    playerEpisodes none = [] := by
  refine ⟨rfl, ?_, rfl⟩
  intro eps
  refine ⟨rfl, by simp [playerEpisodes], ?_⟩
  simp only [playerEpisodes, List.map_map]
  rfl

/-- Helper: the URL-resolution effect of the old variant preserves the
invariant that the loading flag implies no resolved URL.  Every completed
run ends with the loading flag cleared; only the off-Android early return
keeps the flag, and there the state is unchanged. -/
lemma resolveMobileUrlOld_loading_inv (info : NativeMobileInfo)
    (srcs : List VideoSource) (cur mov lf : Option String) (st : OldMobileState)
    (h : st.isLoadingMobileUrl = true → st.mobileVideoUrl = none) :
    (resolveMobileUrlOld info srcs cur mov lf st).1.isLoadingMobileUrl = true →
      (resolveMobileUrlOld info srcs cur mov lf st).1.mobileVideoUrl = none := by
  unfold resolveMobileUrlOld
  split_ifs with h1
  · rcases hds : defaultSource srcs with _ | ds <;> simp only [hds]
    · simp
    · split_ifs <;> try simp
      rcases hq : ds.quality_urls with _ | urls <;> simp [hq]
  · exact h

/-- Helper: every state the old variant can reach from its initial state
satisfies the invariant that the loading flag implies no resolved URL. -/
lemma oldReachable_loading_no_url (st : OldMobileState) (h : OldReachable st) :
    st.isLoadingMobileUrl = true → st.mobileVideoUrl = none := by
  induction h with
  | init => simp [initialOldState]
  | reset st0 h0 ih => intro _; rfl
  | resolve info srcs cur mov lf st0 h0 ih =>
    exact resolveMobileUrlOld_loading_inv info srcs cur mov lf st0 ih

/-- C8: on native Android, while URL resolution is pending, the router
renders the loading spinner and neither player.  For the new variant this
holds at every state whose loading flag is set and whose fallback flag is
clear; for the old variant (which has no fallback flag) it holds at every
reachable state whose loading flag is set, since reachable loading states
never carry a resolved URL. -/
theorem loading_state_renders_spinner (cap : Capacitor) (st : MobileState)
    (ost : OldMobileState) :
    cap.isNativePlatform = true → cap.platform = "android" →
    (st.isLoadingMobileUrl = true → st.useShakaFallback = false →
      renderVideoPlayer (useNativeMobile cap) st = .loadingSpinner) ∧
    (OldReachable ost → ost.isLoadingMobileUrl = true →
      renderVideoPlayerOld (useNativeMobile cap) ost = .loadingSpinner) := by
  intro hn hp
  constructor
  · intro hl hf
    simp [renderVideoPlayer, useNativeMobile, hn, hp, hl, hf]
  · intro hreach hl
    have hu := oldReachable_loading_no_url ost hreach hl
    simp [renderVideoPlayerOld, useNativeMobile, hn, hp, hl, hu, strTruthy]

/-- Witness for C8 at concrete inputs: the state right after an episode
change (no URL, loading set) renders the spinner in both variants; the old
variant state is reached by one reset step from the initial state. -/
theorem loading_state_renders_spinner_witness :
    renderVideoPlayer (useNativeMobile ⟨true, "android"⟩)
      ⟨none, .hls, true, false⟩ = .loadingSpinner ∧
    renderVideoPlayerOld (useNativeMobile ⟨true, "android"⟩)
      ⟨none, .hls, true⟩ = .loadingSpinner :=
  ⟨(loading_state_renders_spinner ⟨true, "android"⟩ ⟨none, .hls, true, false⟩
      ⟨none, .hls, true⟩ rfl rfl).1 rfl rfl,
   (loading_state_renders_spinner ⟨true, "android"⟩ ⟨none, .hls, true, false⟩
      ⟨none, .hls, true⟩ rfl rfl).2
     (OldReachable.reset initialOldState OldReachable.init) rfl⟩

/-- C10 counterexample: at the state combination native Android, resolved
URL present, loading flag set, fallback flag clear, the new variant renders
the loading spinner while the old variant renders the mobile player, so the
two variants do not agree on every combination. -/
theorem variants_render_differently :
    renderVideoPlayer (useNativeMobile ⟨true, "android"⟩)
      ⟨some "https://cdn.example.com/v.m3u8", .hls, true, false⟩ ≠
    renderVideoPlayerOld (useNativeMobile ⟨true, "android"⟩)
      (oldView ⟨some "https://cdn.example.com/v.m3u8", .hls, true, false⟩) := by
  decide

/-- C10 as amended: the two router variants produce the same rendering
outcome for every combination of platform flags and state in which the
fallback flag is clear and the loading flag does not coincide with a truthy
resolved URL. -/
theorem variants_agree_outside_divergence (cap : Capacitor) (st : MobileState) :
    st.useShakaFallback = false →
    (st.isLoadingMobileUrl = true → strTruthy st.mobileVideoUrl = false) →
    renderVideoPlayer (useNativeMobile cap) st =
      renderVideoPlayerOld (useNativeMobile cap) (oldView st) := by
  intro hf hlu
  obtain ⟨n, p⟩ := cap
  obtain ⟨u, t, l, fb⟩ := st
  subst hf
  cases n <;> by_cases hp : p = "android" <;> cases l <;>
    by_cases hu : strTruthy u = true <;>
      simp_all [renderVideoPlayer, renderVideoPlayerOld, oldView, useNativeMobile]

/-- Witness for the amended C10 at concrete inputs: with a resolved URL and
the loading flag clear, both variants render the mobile player. -/
theorem variants_agree_outside_divergence_witness :
    renderVideoPlayer (useNativeMobile ⟨true, "android"⟩)
      ⟨some "https://cdn.example.com/v.m3u8", .hls, false, false⟩ =
    renderVideoPlayerOld (useNativeMobile ⟨true, "android"⟩)
      (oldView ⟨some "https://cdn.example.com/v.m3u8", .hls, false, false⟩) :=
  variants_agree_outside_divergence ⟨true, "android"⟩
    ⟨some "https://cdn.example.com/v.m3u8", .hls, false, false⟩ rfl (by decide)

end Khmerzoon
